import Mathlib

/-
Verification of the cfn-guard pre-commit hook (pre_commit_hooks/cfn_guard.py).

The module is a thin adapter: it installs a pinned release of the external
cfn-guard binary on demand, builds a command string per target file for the
validate and test operations, runs the binary, and aggregates exit codes.

The embedding below mirrors the source module:
  - get_binary_name, install_cfn_guard, run_cfn_guard and main keep their
    source names;
  - the child process is an oracle (spawn : String -> Int) returning the exit
    code of the wrapped executable, since its behaviour is out of scope;
  - filesystem state is the set of file basenames present in the install
    directory, which is the only filesystem fact the source consults;
  - Python exceptions become a PyError sum type: CfnGuardPreCommitError,
    the TypeError raised by subscripting None, the IndexError raised by
    subscripting an empty list, the FileNotFoundError raised by os.chmod on a
    missing path, and RecursionError for unbounded recursion (modelled by
    running out of fuel);
  - install_cfn_guard and run_cfn_guard additionally return the ordered list
    of observable side effects (download, mkdir, file writes, chmod, temp
    removal, process spawns) so that temporal claims are statable.
-/

namespace CfnGuard

/-- Constant BIN_NAME from the source. -/
def BIN_NAME : String := "cfn-guard"

/-- Constant UNSUPPORTED_OS_MSG from the source. -/
def UNSUPPORTED_OS_MSG : String :=
  "Unsupported operating system. Could not install cfn-guard."

/-- Constant UNKNOWN_OPERATION_MSG from the source. -/
def UNKNOWN_OPERATION_MSG : String :=
  "Unknown operation. cfn-guard pre-commit-hook only supports validate and test commands."

/-- Constant GUARD_BINARY_VERSION from the source. -/
def GUARD_BINARY_VERSION : String := "3.1.1"

/-- The release_urls_dict mapping from the source. -/
def release_urls_dict (os : String) : Option String :=
  if os == "darwin" then
    some "https://github.com/aws-cloudformation/cloudformation-guard/releases/download/TAG/cfn-guard-v3-macos-latest.tar.gz"
  else if os == "linux" then
    some "https://github.com/aws-cloudformation/cloudformation-guard/releases/download/TAG/cfn-guard-v3-ubuntu-latest.tar.gz"
  else if os == "windows" then
    some "https://github.com/aws-cloudformation/cloudformation-guard/releases/download/TAG/cfn-guard-v3-windows-latest.tar.gz"
  else
    none

/-- The supported_oses list from the source. -/
def supported_oses : List String := ["linux", "darwin", "windows"]

/-- ASCII lowering of one character, as str.lower acts on the ASCII
identifiers platform.system returns. -/
def lower_char (c : Char) : Char :=
  if c.isUpper then Char.ofNat (c.toNat + 32) else c

/-- Models current_os = platform.system().lower(): the host OS identifier is
compared case-insensitively by lowering it once at module load. -/
def resolve_os (sysName : String) : String :=
  String.mk (sysName.data.map lower_char)

/-- Python exceptions that the source can raise, as a sum type.
cfnGuardError is CfnGuardPreCommitError(message, code); typeError is the
TypeError from subscripting None; indexError is the IndexError from
subscripting an empty list; fileNotFoundError is raised by os.chmod on a
missing path; recursionError models Python exhausting the recursion limit. -/
inductive PyError where
  | cfnGuardError (message : String) (code : Option Int)
  | typeError
  | indexError
  | fileNotFoundError (path : String)
  | recursionError
  deriving DecidableEq, Repr

/-- Source get_binary_name: the constant name, with .exe appended exactly
when the resolved OS is windows. -/
def get_binary_name (current_os : String) : String :=
  BIN_NAME ++ (if current_os == "windows" then ".exe" else "")

/-- Accumulating scan for basename: the characters after the last slash. -/
def basename_aux : List Char → List Char → List Char
  | [], acc => acc.reverse
  | c :: rest, acc =>
    if c = '/' then basename_aux rest [] else basename_aux rest (c :: acc)

/-- Models os.path.basename on the slash-separated member names found in the
release archive. -/
def basename (p : String) : String := String.mk (basename_aux p.data [])

/-- A tar archive member: its path inside the archive and whether it is a
directory entry. -/
structure TarMember where
  name : String
  isDir : Bool
  deriving DecidableEq, Repr

/-- The filesystem facts the source consults: which file basenames exist in
the install directory. -/
structure FS where
  files : List String
  deriving DecidableEq, Repr

/-- Ambient host state: the resolved OS identifier, the home directory, the
contents of the release archive the download yields, and the exit code the
spawned child process returns for a given command line. -/
structure Env where
  current_os : String
  home : String
  archiveMembers : List TarMember
  spawn : String → Int

/-- Source install_dir: a fixed directory under the home directory. -/
def install_dir (env : Env) : String := env.home ++ "/.cfn-guard-pre-commit"

/-- Full path of the resolved binary inside the install directory. -/
def binary_path (env : Env) : String :=
  install_dir env ++ "/" ++ get_binary_name env.current_os

/-- Observable side effects of install_cfn_guard, in program order. -/
inductive InstallEvent where
  | download (url : String)
  | mkdir
  | writeFile (filename : String)
  | chmod (filename : String)
  | removeTemp
  deriving DecidableEq, Repr

/-- Result of install_cfn_guard: the outcome, the resulting filesystem and
the ordered side effects performed. -/
structure InstallOutcome where
  result : Except PyError Unit
  fs : FS
  events : List InstallEvent

/-- The download URL for a supported OS: the per-platform template with TAG
replaced by the pinned version, as in the source. -/
def install_url (current_os : String) : String :=
  ((release_urls_dict current_os).getD "").replace "TAG" GUARD_BINARY_VERSION

/-- Basenames of the regular (non-directory) archive members, in archive
order: exactly the files the extraction loop writes into install_dir. -/
def extracted_names (members : List TarMember) : List String :=
  (members.filter (fun m => !m.isDir)).map (fun m => basename m.name)

/-- Files present in install_dir after the extraction loop: whatever was
there before plus every extracted basename. -/
def install_files (env : Env) (st : FS) : List String :=
  st.files ++ extracted_names env.archiveMembers

/-- Source install_cfn_guard. On a supported OS it downloads the archive,
creates the install directory, writes every regular member basename, then
sets mode 0755 on the binary path (os.chmod raises FileNotFoundError when
that path does not exist, in which case the temp file is not removed), and
finally removes the temporary archive. On an unsupported OS it raises
CfnGuardPreCommitError with code 1 before any of that work. -/
def install_cfn_guard (env : Env) (st : FS) : InstallOutcome :=
  if env.current_os ∈ supported_oses then
    if get_binary_name env.current_os ∈ install_files env st then
      { result := Except.ok ()
        fs := { files := install_files env st }
        events := InstallEvent.download (install_url env.current_os) :: InstallEvent.mkdir ::
          ((extracted_names env.archiveMembers).map InstallEvent.writeFile ++
            [InstallEvent.chmod (get_binary_name env.current_os), InstallEvent.removeTemp]) }
    else
      { result := Except.error (PyError.fileNotFoundError (binary_path env))
        fs := { files := install_files env st }
        events := InstallEvent.download (install_url env.current_os) :: InstallEvent.mkdir ::
          (extracted_names env.archiveMembers).map InstallEvent.writeFile }
  else
    { result := Except.error (PyError.cfnGuardError (UNSUPPORTED_OS_MSG ++ ": " ++ env.current_os) (some 1))
      fs := st
      events := [] }

/-- Observable side effects of run_cfn_guard: an install attempt or a child
process spawn with the full command line. -/
inductive RunEvent where
  | install
  | spawn (cmd : String)
  deriving DecidableEq, Repr

/-- Result of run_cfn_guard: the outcome, the resulting filesystem and the
ordered side effects performed. -/
structure RunOutcome where
  result : Except PyError Int
  fs : FS
  events : List RunEvent

/-- Source run_cfn_guard. The source recurses unboundedly on itself after
installing; the fuel argument makes that recursion structural, with fuel
exhaustion standing for the RecursionError Python would eventually raise. -/
def run_cfn_guard : Nat → Env → FS → String → RunOutcome
  | 0, _, st, _ => { result := Except.error PyError.recursionError, fs := st, events := [] }
  | fuel + 1, env, st, args =>
    if get_binary_name env.current_os ∈ st.files then
      { result := Except.ok (env.spawn (binary_path env ++ " " ++ args))
        fs := st
        events := [RunEvent.spawn (binary_path env ++ " " ++ args)] }
    else
      match (install_cfn_guard env st).result with
      | Except.error e => { result := Except.error e
                            fs := (install_cfn_guard env st).fs
                            events := [RunEvent.install] }
      | Except.ok _ =>
        { result := (run_cfn_guard fuel env (install_cfn_guard env st).fs args).result
          fs := (run_cfn_guard fuel env (install_cfn_guard env st).fs args).fs
          events := RunEvent.install :: (run_cfn_guard fuel env (install_cfn_guard env st).fs args).events }

/-- Parsed argparse namespace: filenames is the positional list, operation is
required and appending so always a list, rules and dir are appending and
default to None when the flag never occurs. -/
structure Args where
  filenames : List String
  operation : List String
  rules : Option (List String)
  dir : Option (List String)

/-- Python subscript [0] on an Optional list: None raises TypeError, an empty
list raises IndexError. -/
def subscript0 : Option (List String) → Except PyError String
  | none => Except.error PyError.typeError
  | some [] => Except.error PyError.indexError
  | some (x :: _) => Except.ok x

/-- Python subscript [0] on a plain list. -/
def list_subscript0 : List String → Except PyError String
  | [] => Except.error PyError.indexError
  | x :: _ => Except.ok x

/-- The command-building branch of the per-file loop in main: dispatch on
operation[0], building the validate or test command string, or raising
CfnGuardPreCommitError(UNKNOWN_OPERATION_MSG) for any other operation. -/
def build_command (operation : List String) (rules dir : Option (List String))
    (filename : String) : Except PyError String :=
  match list_subscript0 operation with
  | Except.error e => Except.error e
  | Except.ok op =>
    if op == "validate" then
      match subscript0 rules with
      | Except.error e => Except.error e
      | Except.ok r => Except.ok ("validate --rules=" ++ r ++ " --data=" ++ filename)
    else if op == "test" then
      match subscript0 dir with
      | Except.error e => Except.error e
      | Except.ok d => Except.ok ("test --dir=" ++ d)
    else
      Except.error (PyError.cfnGuardError UNKNOWN_OPERATION_MSG none)

/-- Result of main: its return value or uncaught exception, and the command
strings passed to run_cfn_guard, in order. -/
structure MainOutcome where
  result : Except PyError Int
  invoked : List String

/-- The per-file loop of main: build the command, run it, and overwrite the
running exit code whenever the result is non-zero. The run oracle returns
the exit code run_cfn_guard yields for a command string. -/
def main_loop (run : String → Int) (operation : List String)
    (rules dir : Option (List String)) :
    List String → Int → List String → MainOutcome
  | [], exit_code, invoked => { result := Except.ok exit_code, invoked := invoked }
  | filename :: rest, exit_code, invoked =>
    match build_command operation rules dir filename with
    | Except.error e => { result := Except.error e, invoked := invoked }
    | Except.ok cmd =>
      main_loop run operation rules dir rest
        (if run cmd ≠ 0 then run cmd else exit_code) (invoked ++ [cmd])

/-- Source main, after argument parsing: iterate the filenames with exit
code 0 and no commands invoked yet. -/
def main (run : String → Int) (args : Args) : MainOutcome :=
  main_loop run args.operation args.rules args.dir args.filenames 0 []

/-- The command string main builds for one file when building succeeds
(placeholder empty string otherwise, never consulted in that case). -/
def command_of (operation : List String) (rules dir : Option (List String))
    (filename : String) : String :=
  match build_command operation rules dir filename with
  | Except.ok c => c
  | Except.error _ => ""

/-- The aggregation main actually performs: each non-zero result overwrites
the accumulator, so the last non-zero result wins, with 0 when none is
non-zero. -/
def last_non_zero (results : List Int) : Int :=
  results.foldl (fun acc r => if r ≠ 0 then r else acc) 0

/-- Configurations under which the command-building branch succeeds for every
filename: validate with at least one rules value, or test with at least one
dir value. -/
def op_config_ok (operation : List String) (rules dir : Option (List String)) : Prop :=
  (operation.head? = some "validate" ∧ ∃ r rs, rules = some (r :: rs)) ∨
  (operation.head? = some "test" ∧ ∃ d ds, dir = some (d :: ds))

/-- Building the validate command uses rules[0] only. -/
theorem command_of_validate (ops rs : List String) (r : String)
    (dir : Option (List String)) (f : String) :
    command_of ("validate" :: ops) (some (r :: rs)) dir f =
      "validate --rules=" ++ r ++ " --data=" ++ f := rfl

/-- Building the test command uses dir[0] only and ignores the filename. -/
theorem command_of_test (ops ds : List String) (d : String)
    (rules : Option (List String)) (f : String) :
    command_of ("test" :: ops) rules (some (d :: ds)) f = "test --dir=" ++ d := rfl

/-- Under a good configuration, building the command succeeds for every
filename and yields command_of. -/
theorem build_ok (operation : List String) (rules dir : Option (List String))
    (h : op_config_ok operation rules dir) (f : String) :
    build_command operation rules dir f =
      Except.ok (command_of operation rules dir f) := by
  rcases h with ⟨hop, r, rs, hr⟩ | ⟨hop, d, ds, hd⟩
  · cases operation with
    | nil => simp at hop
    | cons o t =>
      simp only [List.head?_cons, Option.some.injEq] at hop
      subst hop; subst hr
      exact rfl
  · cases operation with
    | nil => simp at hop
    | cons o t =>
      simp only [List.head?_cons, Option.some.injEq] at hop
      subst hop; subst hd
      exact rfl

/-- Closed form of the per-file loop when every command builds: the loop
folds the overwrite-on-non-zero aggregation over the filenames and invokes
exactly the built commands in order. -/
theorem main_loop_spec (run : String → Int) (operation : List String)
    (rules dir : Option (List String))
    (h : ∀ f, build_command operation rules dir f =
      Except.ok (command_of operation rules dir f)) :
    ∀ (fs : List String) (code : Int) (invoked : List String),
      main_loop run operation rules dir fs code invoked =
        { result := Except.ok (fs.foldl (fun acc f =>
            if run (command_of operation rules dir f) ≠ 0
            then run (command_of operation rules dir f) else acc) code)
          invoked := invoked ++ fs.map (command_of operation rules dir) } := by
  intro fs
  induction fs with
  | nil => intro code invoked; simp [main_loop]
  | cons f rest ih =>
    intro code invoked
    have step : main_loop run operation rules dir (f :: rest) code invoked =
        main_loop run operation rules dir rest
          (if run (command_of operation rules dir f) ≠ 0
           then run (command_of operation rules dir f) else code)
          (invoked ++ [command_of operation rules dir f]) := by
      rw [main_loop, h f]
    rw [step, ih]
    simp

/-- Folding the overwrite-on-non-zero step gives 0 exactly when the
accumulator is 0 and every element is 0. -/
theorem foldl_overwrite_eq_zero (l : List Int) :
    ∀ acc : Int,
      (l.foldl (fun acc r => if r ≠ 0 then r else acc) acc = 0 ↔
        acc = 0 ∧ ∀ r ∈ l, r = 0) := by
  induction l with
  | nil => intro acc; simp
  | cons r rest ih =>
    intro acc
    rw [List.foldl_cons, ih]
    by_cases hr : r = 0
    · subst hr
      rw [if_neg (by simp)]
      simp [List.forall_mem_cons]
    · rw [if_pos hr]
      constructor
      · rintro ⟨h0, _⟩; exact absurd h0 hr
      · rintro ⟨_, hall⟩
        exact absurd (hall r (List.mem_cons_self r rest)) hr

/-- last_non_zero is 0 exactly when every result is 0. -/
theorem last_non_zero_eq_zero_iff (l : List Int) :
    last_non_zero l = 0 ↔ ∀ r ∈ l, r = 0 := by
  unfold last_non_zero
  rw [foldl_overwrite_eq_zero l 0]
  simp

/-- Run oracle for the C1 counterexample: the first file fails with exit
code 2, every other command returns 1. -/
def c1_run : String → Int :=
  fun s => if s == "validate --rules=r.guard --data=a.yaml" then 2 else 1

/-- Arguments for the C1 counterexample: two files, validate, one rules
value. -/
def c1_args : Args :=
  { filenames := ["a.yaml", "b.yaml"], operation := ["validate"]
    rules := some ["r.guard"], dir := none }

/-- C1 counterexample: with per-file invocation results 2 then 1, main
returns 1 (the last non-zero code), not the maximum non-zero code 2, so the
claim that main returns the worst (maximum) non-zero code is false. -/
theorem main_not_worst_code_counterexample :
    (main c1_run c1_args).result = Except.ok 1 ∧
    (main c1_run c1_args).invoked =
      ["validate --rules=r.guard --data=a.yaml",
       "validate --rules=r.guard --data=b.yaml"] ∧
    c1_run "validate --rules=r.guard --data=a.yaml" = 2 ∧
    c1_run "validate --rules=r.guard --data=b.yaml" = 1 ∧
    (main c1_run c1_args).result ≠ Except.ok 2 := by
  have h1 : (main c1_run c1_args).result = Except.ok 1 := rfl
  refine ⟨h1, rfl, rfl, rfl, ?_⟩
  rw [h1]
  intro hcontra
  exact absurd (Except.ok.inj hcontra) (by decide)

/-- C1 (amended): whenever the configured operation builds a command for
every file, main returns the LAST non-zero exit code among the per-file
invocation results (each non-zero result overwrites the previous), and it
returns zero exactly when every invocation returns zero. -/
theorem main_last_nonzero_aggregate (run : String → Int) (args : Args)
    (h : op_config_ok args.operation args.rules args.dir) :
    (main run args).result =
      Except.ok (last_non_zero (args.filenames.map
        (fun f => run (command_of args.operation args.rules args.dir f)))) ∧
    ((main run args).result = Except.ok 0 ↔
      ∀ f ∈ args.filenames,
        run (command_of args.operation args.rules args.dir f) = 0) := by
  have hb := build_ok args.operation args.rules args.dir h
  have hres : (main run args).result =
      Except.ok (args.filenames.foldl (fun acc f =>
        if run (command_of args.operation args.rules args.dir f) ≠ 0
        then run (command_of args.operation args.rules args.dir f) else acc) 0) := by
    unfold main
    rw [main_loop_spec run _ _ _ hb]
  have hfold : args.filenames.foldl (fun acc f =>
        if run (command_of args.operation args.rules args.dir f) ≠ 0
        then run (command_of args.operation args.rules args.dir f) else acc) 0 =
      last_non_zero (args.filenames.map
        (fun f => run (command_of args.operation args.rules args.dir f))) := by
    unfold last_non_zero
    rw [List.foldl_map]
  constructor
  · rw [hres, hfold]
  · rw [hres, hfold]
    constructor
    · intro hz f hf
      have hall := (last_non_zero_eq_zero_iff _).mp (Except.ok.inj hz)
      exact hall _ (List.mem_map_of_mem _ hf)
    · intro hall
      have hz : last_non_zero (args.filenames.map
          (fun f => run (command_of args.operation args.rules args.dir f))) = 0 := by
        rw [last_non_zero_eq_zero_iff]
        intro x hx
        obtain ⟨f, hf, rfl⟩ := List.mem_map.mp hx
        exact hall f hf
      rw [hz]

/-- Arguments for the C1 witness: one file, validate, one rules value. -/
def c1_witness_args : Args :=
  { filenames := ["a.yaml"], operation := ["validate"]
    rules := some ["r.guard"], dir := none }

/-- Witness for the amended C1 at a concrete configuration. -/
theorem main_last_nonzero_aggregate_witness :
    (main c1_run c1_witness_args).result =
      Except.ok (last_non_zero (c1_witness_args.filenames.map
        (fun f => c1_run (command_of c1_witness_args.operation
          c1_witness_args.rules c1_witness_args.dir f)))) ∧
    ((main c1_run c1_witness_args).result = Except.ok 0 ↔
      ∀ f ∈ c1_witness_args.filenames,
        c1_run (command_of c1_witness_args.operation
          c1_witness_args.rules c1_witness_args.dir f) = 0) :=
  main_last_nonzero_aggregate c1_run c1_witness_args (Or.inl ⟨rfl, "r.guard", [], rfl⟩)

/-- C2: with operation validate and a non-empty rules list, the command main
builds and invokes for each target file is exactly
validate --rules=rules[0] --data=filename, using only the first rules value
no matter how many were passed. -/
theorem main_validate_commands (run : String → Int) (fs ops rs : List String)
    (r : String) (dir : Option (List String)) :
    (main run { filenames := fs, operation := "validate" :: ops
                rules := some (r :: rs), dir := dir }).invoked =
      fs.map (fun f => "validate --rules=" ++ r ++ " --data=" ++ f) := by
  have hb := build_ok ("validate" :: ops) (some (r :: rs)) dir
    (Or.inl ⟨rfl, r, rs, rfl⟩)
  unfold main
  rw [main_loop_spec run _ _ _ hb]
  simp [command_of_validate]

/-- C3: with operation test and a non-empty dir list, the command main
builds for every target file is exactly test --dir=dir[0]; the filename does
not occur in it, so every file in the batch yields the identical command. -/
theorem main_test_commands (run : String → Int) (fs ops ds : List String)
    (d : String) (rules : Option (List String)) :
    (main run { filenames := fs, operation := "test" :: ops
                rules := rules, dir := some (d :: ds) }).invoked =
      List.replicate fs.length ("test --dir=" ++ d) := by
  have hb := build_ok ("test" :: ops) rules (some (d :: ds))
    (Or.inr ⟨rfl, d, ds, rfl⟩)
  have hcmd : command_of ("test" :: ops) rules (some (d :: ds)) =
      fun _ => "test --dir=" ++ d :=
    funext (fun f => command_of_test ops ds d rules f)
  unfold main
  rw [main_loop_spec run _ _ _ hb, hcmd]
  simp [List.map_const']

/-- C4: with a non-empty filenames list and a first operation value that is
neither validate nor test, main raises CfnGuardPreCommitError with the
unknown-operation message and invokes no command. -/
theorem main_unknown_operation (run : String → Int) (f op : String)
    (fs ops : List String) (rules dir : Option (List String))
    (h1 : op ≠ "validate") (h2 : op ≠ "test") :
    main run { filenames := f :: fs, operation := op :: ops
               rules := rules, dir := dir } =
      { result := Except.error (PyError.cfnGuardError UNKNOWN_OPERATION_MSG none)
        invoked := [] } := by
  have hb : build_command (op :: ops) rules dir f =
      Except.error (PyError.cfnGuardError UNKNOWN_OPERATION_MSG none) := by
    simp [build_command, list_subscript0, h1, h2]
  unfold main
  rw [main_loop, hb]

/-- Witness for C4 at the unknown operation lint. -/
theorem main_unknown_operation_witness :
    main (fun _ => 0) { filenames := ["template.yaml"], operation := ["lint"]
                        rules := none, dir := none } =
      { result := Except.error (PyError.cfnGuardError UNKNOWN_OPERATION_MSG none)
        invoked := [] } :=
  main_unknown_operation (fun _ => 0) "template.yaml" "lint" [] [] none none
    (by decide) (by decide)

/-- C5: with an empty filenames list, main returns 0 and invokes no child
process, whatever the operation, rules and dir values and whatever the child
would return. -/
theorem main_empty_filenames (run : String → Int) (operation : List String)
    (rules dir : Option (List String)) :
    main run { filenames := [], operation := operation
               rules := rules, dir := dir } =
      { result := Except.ok 0, invoked := [] } := rfl

/-- C7: the resolved binary name is the constant name with .exe appended on
windows, and exactly the bare constant name on linux and darwin. -/
theorem get_binary_name_per_platform :
    get_binary_name "windows" = BIN_NAME ++ ".exe" ∧
    get_binary_name "linux" = BIN_NAME ∧
    get_binary_name "darwin" = BIN_NAME :=
  ⟨rfl, rfl, rfl⟩

/-- C10: with a non-empty filenames list, operation validate but no rules
value (or operation test but no dir value), main fails with the TypeError
from subscripting None, which is not the CfnGuardPreCommitError carrying the
unknown-operation message: the precondition is never checked before use. -/
theorem main_missing_flag_type_error (run : String → Int) (f : String)
    (fs ops : List String) (rules dir : Option (List String)) :
    main run { filenames := f :: fs, operation := "validate" :: ops
               rules := none, dir := dir } =
      { result := Except.error PyError.typeError, invoked := [] } ∧
    main run { filenames := f :: fs, operation := "test" :: ops
               rules := rules, dir := none } =
      { result := Except.error PyError.typeError, invoked := [] } ∧
    PyError.typeError ≠ PyError.cfnGuardError UNKNOWN_OPERATION_MSG none :=
  ⟨rfl, rfl, by decide⟩

/-- Witness for C10 at a concrete invocation missing the rules flag. -/
theorem main_missing_flag_type_error_witness :
    main (fun _ => 0) { filenames := ["a.yaml"], operation := ["validate"]
                        rules := none, dir := none } =
      { result := Except.error PyError.typeError, invoked := [] } :=
  (main_missing_flag_type_error (fun _ => 0) "a.yaml" [] [] none none).1

/-- Unfolding equation of run_cfn_guard at a positive fuel value. -/
theorem run_cfn_guard_succ (fuel : Nat) (env : Env) (st : FS) (args : String) :
    run_cfn_guard (fuel + 1) env st args =
      if get_binary_name env.current_os ∈ st.files then
        { result := Except.ok (env.spawn (binary_path env ++ " " ++ args))
          fs := st
          events := [RunEvent.spawn (binary_path env ++ " " ++ args)] }
      else
        match (install_cfn_guard env st).result with
        | Except.error e => { result := Except.error e
                              fs := (install_cfn_guard env st).fs
                              events := [RunEvent.install] }
        | Except.ok _ =>
          { result := (run_cfn_guard fuel env (install_cfn_guard env st).fs args).result
            fs := (run_cfn_guard fuel env (install_cfn_guard env st).fs args).fs
            events := RunEvent.install ::
              (run_cfn_guard fuel env (install_cfn_guard env st).fs args).events } := rfl

/-- install_cfn_guard never reports the fuel-exhaustion error: its failures
are the unsupported-platform error or the chmod FileNotFoundError. -/
theorem install_result_ne_recursion (env : Env) (st : FS) :
    (install_cfn_guard env st).result ≠ Except.error PyError.recursionError := by
  unfold install_cfn_guard
  split_ifs <;> simp

/-- When install_cfn_guard returns normally, the resolved binary exists in
the resulting filesystem: os.chmod on the binary path succeeded, which
requires the path to exist. -/
theorem install_ok_binary_mem (env : Env) (st : FS)
    (h : (install_cfn_guard env st).result = Except.ok ()) :
    get_binary_name env.current_os ∈ (install_cfn_guard env st).fs.files := by
  by_cases h1 : env.current_os ∈ supported_oses
  · by_cases h2 : get_binary_name env.current_os ∈ install_files env st
    · unfold install_cfn_guard
      rw [if_pos h1, if_pos h2]
      exact h2
    · unfold install_cfn_guard at h
      rw [if_pos h1, if_neg h2] at h
      exact absurd h (by simp)
  · unfold install_cfn_guard at h
    rw [if_neg h1] at h
    exact absurd h (by simp)

/-- C6: the Invoker never spawns a non-existent binary path and never
retries install more than once per call. When the binary exists it is
spawned immediately with no install. When it is absent, install runs first
and exactly once: either install fails and that exception (never the
recursion-limit error, so no infinite loop) is the result with no spawn
attempted, or install succeeds, the binary then exists, and a single spawn
follows the single install. -/
theorem run_cfn_guard_install_once (fuel : Nat) (env : Env) (st : FS)
    (args : String) :
    (get_binary_name env.current_os ∈ st.files →
      run_cfn_guard (fuel + 1 + 1) env st args =
        { result := Except.ok (env.spawn (binary_path env ++ " " ++ args))
          fs := st
          events := [RunEvent.spawn (binary_path env ++ " " ++ args)] }) ∧
    (get_binary_name env.current_os ∉ st.files →
      ((run_cfn_guard (fuel + 1 + 1) env st args).events = [RunEvent.install] ∧
        ∃ e, (run_cfn_guard (fuel + 1 + 1) env st args).result = Except.error e ∧
          e ≠ PyError.recursionError) ∨
      (∃ c, (run_cfn_guard (fuel + 1 + 1) env st args).events =
          [RunEvent.install, RunEvent.spawn c] ∧
        (run_cfn_guard (fuel + 1 + 1) env st args).result =
          Except.ok (env.spawn c))) := by
  constructor
  · intro hmem
    rw [run_cfn_guard_succ, if_pos hmem]
  · intro hmem
    rw [run_cfn_guard_succ, if_neg hmem]
    cases hres : (install_cfn_guard env st).result with
    | error e =>
      exact Or.inl ⟨rfl, e, rfl,
        fun hcontra => install_result_ne_recursion env st (hcontra ▸ hres)⟩
    | ok u =>
      cases u
      have hmem2 := install_ok_binary_mem env st hres
      refine Or.inr ⟨binary_path env ++ " " ++ args, ?_, ?_⟩
      · show RunEvent.install ::
          (run_cfn_guard (fuel + 1) env (install_cfn_guard env st).fs args).events = _
        rw [run_cfn_guard_succ, if_pos hmem2]
      · show (run_cfn_guard (fuel + 1) env (install_cfn_guard env st).fs args).result = _
        rw [run_cfn_guard_succ, if_pos hmem2]

/-- Host state for the C6 witness: linux, an archive whose nested regular
member flattens to the binary name, empty install directory. -/
def c6_env : Env :=
  { current_os := "linux", home := "/home/user"
    archiveMembers := [{ name := "release/cfn-guard", isDir := false }]
    spawn := fun _ => 0 }

/-- Witness for C6: starting from a missing binary, one install then one
spawn. -/
theorem run_cfn_guard_install_once_witness :
    ((run_cfn_guard 2 c6_env { files := [] } "validate --rules=r.guard --data=a.yaml").events =
        [RunEvent.install] ∧
      ∃ e, (run_cfn_guard 2 c6_env { files := [] } "validate --rules=r.guard --data=a.yaml").result =
          Except.error e ∧ e ≠ PyError.recursionError) ∨
    (∃ c, (run_cfn_guard 2 c6_env { files := [] } "validate --rules=r.guard --data=a.yaml").events =
        [RunEvent.install, RunEvent.spawn c] ∧
      (run_cfn_guard 2 c6_env { files := [] } "validate --rules=r.guard --data=a.yaml").result =
        Except.ok (c6_env.spawn c)) :=
  (run_cfn_guard_install_once 0 c6_env { files := [] }
    "validate --rules=r.guard --data=a.yaml").2 (by decide)

/-- C8: for any host OS identifier whose lowercase form is none of linux,
darwin and windows, install_cfn_guard raises CfnGuardPreCommitError with the
fixed code 1 and performs no install work at all: no download, no directory
creation, no file write, and the filesystem is unchanged. -/
theorem unsupported_platform_no_install (sys home : String)
    (members : List TarMember) (sp : String → Int) (st : FS)
    (h : resolve_os sys ∉ supported_oses) :
    install_cfn_guard { current_os := resolve_os sys, home := home
                        archiveMembers := members, spawn := sp } st =
      { result := Except.error (PyError.cfnGuardError
          (UNSUPPORTED_OS_MSG ++ ": " ++ resolve_os sys) (some 1))
        fs := st
        events := [] } := by
  unfold install_cfn_guard
  rw [if_neg h]

/-- Witness for C8 at the unsupported identifier FreeBSD. -/
theorem unsupported_platform_no_install_witness :
    install_cfn_guard { current_os := resolve_os "FreeBSD", home := "/home/user"
                        archiveMembers := [], spawn := fun _ => 0 } { files := [] } =
      { result := Except.error (PyError.cfnGuardError
          (UNSUPPORTED_OS_MSG ++ ": " ++ resolve_os "FreeBSD") (some 1))
        fs := { files := [] }
        events := [] } :=
  unsupported_platform_no_install "FreeBSD" "/home/user" [] (fun _ => 0)
    { files := [] } (by decide)

/-- C9: on a supported platform, when install_cfn_guard returns normally its
side effects are, in order, the download, the directory creation, one write
per regular archive entry, and only after all of them the chmod granting
0755 on the binary, followed by the temp archive removal; when it fails, no
chmod and no temp removal happened at all, so permission is never granted
before the copy completed. -/
theorem install_chmod_after_writes (env : Env) (st : FS)
    (hos : env.current_os ∈ supported_oses) :
    ((install_cfn_guard env st).result = Except.ok () →
      (install_cfn_guard env st).events =
        InstallEvent.download (install_url env.current_os) :: InstallEvent.mkdir ::
          ((extracted_names env.archiveMembers).map InstallEvent.writeFile ++
            [InstallEvent.chmod (get_binary_name env.current_os),
             InstallEvent.removeTemp])) ∧
    (∀ e, (install_cfn_guard env st).result = Except.error e →
      (∀ b, InstallEvent.chmod b ∉ (install_cfn_guard env st).events) ∧
        InstallEvent.removeTemp ∉ (install_cfn_guard env st).events) := by
  unfold install_cfn_guard
  rw [if_pos hos]
  by_cases hb : get_binary_name env.current_os ∈ install_files env st
  · rw [if_pos hb]
    constructor
    · intro; rfl
    · intro e he; exact absurd he (by simp)
  · rw [if_neg hb]
    constructor
    · intro h; exact absurd h (by simp)
    · intro e _
      constructor
      · intro b
        simp
      · simp

/-- Host state for the C9 witness: linux with an archive holding exactly the
binary, empty install directory. -/
def c9_env : Env :=
  { current_os := "linux", home := "/home/user"
    archiveMembers := [{ name := "cfn-guard", isDir := false }]
    spawn := fun _ => 0 }

/-- Witness for C9 at a concrete successful installation. -/
theorem install_chmod_after_writes_witness :
    (install_cfn_guard c9_env { files := [] }).events =
      InstallEvent.download (install_url c9_env.current_os) :: InstallEvent.mkdir ::
        ((extracted_names c9_env.archiveMembers).map InstallEvent.writeFile ++
          [InstallEvent.chmod (get_binary_name c9_env.current_os),
           InstallEvent.removeTemp]) :=
  (install_chmod_after_writes c9_env { files := [] } (by decide)).1 rfl

end CfnGuard
